import Mathlib

/-!
Verification of the interactive renewable-energy report generator
(`src/1.py`, class `InteractiveRenewableEnergyGenAI`).

Numeric values are embedded as rationals: every constant in the source is a
finite decimal, and all derivations are elementary arithmetic on those
constants, so the rational embedding computes the ideal values the source's
formulas denote.
-/

/-- The community profile collected by `get_user_input`: the keys of the
`community_data` dict, with the float-valued fields as rationals. -/
structure CommunityProfile where
  name : String
  region : String
  type : String
  population : String
  avg_demand : ℚ
  peak_demand : ℚ
  avg_ghi : ℚ
  avg_wind_speed : ℚ
  season_pattern : String
  main_challenge : String
  special_needs : String
deriving DecidableEq

/-- The impact-metric record returned by `calculate_personalized_impact`:
the keys of the `personalized` dict. `jobs_created` is a Python int; the
rest are floats. -/
structure ImpactMetrics where
  cost_reduction_percent : ℚ
  monthly_savings_inr : ℚ
  reliability_improvement : ℚ
  renewable_penetration : ℚ
  peak_reduction : ℚ
  co2_reduction_tons : ℚ
  diesel_displacement_liters : ℚ
  jobs_created : ℤ
  payback_months : ℚ
  prediction_accuracy_pv : ℚ
  prediction_accuracy_wind : ℚ
  prediction_error_pv : ℚ
  prediction_error_wind : ℚ
deriving DecidableEq

/-- Constant `self.model_metrics['pv_r2']`, set once in `__init__`. -/
def pv_r2 : ℚ := 0.983

/-- Constant `self.model_metrics['wind_r2']`, set once in `__init__`. -/
def wind_r2 : ℚ := 0.965

/-- Constant `self.model_metrics['pv_mae']`, set once in `__init__`. -/
def pv_mae : ℚ := 367.709

/-- Constant `self.model_metrics['wind_mae']`, set once in `__init__`. -/
def wind_mae : ℚ := 178.476

/-- The `type_factors` dict lookup `type_factors.get(community_data['type'], 1.0)`. -/
def type_factors (t : String) : ℚ :=
  if t = "rural_agricultural" then 1.0
  else if t = "urban_mixed" then 1.15
  else if t = "industrial_zone" then 1.25
  else if t = "coastal_area" then 1.1
  else 1.0

/-- Source line `ghi_factor = min(1.5, community_data['avg_ghi'] / 400)`. -/
def ghi_factor (avg_ghi : ℚ) : ℚ := min 1.5 (avg_ghi / 400)

/-- Source line `wind_factor = min(1.8, community_data['avg_wind_speed'] / 3.0)`. -/
def wind_factor (avg_wind_speed : ℚ) : ℚ := min 1.8 (avg_wind_speed / 3.0)

/-- Python `int()` applied to a float: truncation toward zero. -/
def pyInt (q : ℚ) : ℤ := if 0 ≤ q then ⌊q⌋ else ⌈q⌉

/-- Method `calculate_personalized_impact`: the `personalized` dict, field by field. -/
def calculate_personalized_impact (c : CommunityProfile) : ImpactMetrics :=
  let adjustment := type_factors c.type
  { cost_reduction_percent := (pv_r2 * 25 + wind_r2 * 15) * adjustment
    monthly_savings_inr := c.avg_demand * 0.12 * adjustment
    reliability_improvement := (pv_r2 + wind_r2) * 45
    renewable_penetration := (pv_r2 * 40 + wind_r2 * 30) * ghi_factor c.avg_ghi
    peak_reduction := pv_r2 * 20 * adjustment
    co2_reduction_tons := c.avg_demand * 0.8 * adjustment
    diesel_displacement_liters := c.avg_demand * 15 * adjustment
    jobs_created := max 3 (pyInt (c.avg_demand / 5000))
    payback_months := max 18 (36 - pv_r2 * 12)
    prediction_accuracy_pv := pv_r2
    prediction_accuracy_wind := wind_r2
    prediction_error_pv := pv_mae
    prediction_error_wind := wind_mae }

/-- The profile built entirely from the literal defaults of `get_user_input`. -/
def sampleProfile : CommunityProfile :=
  { name := "Sample Community"
    region := "Unknown Region"
    type := "rural_agricultural"
    population := "10,000"
    avg_demand := 22000
    peak_demand := 35000
    avg_ghi := 400
    avg_wind_speed := 3.0
    season_pattern := "Balanced across seasons"
    main_challenge := "Unreliable grid supply"
    special_needs := "General community needs" }

/-- The default profile with zero average demand. -/
def zeroDemandProfile : CommunityProfile :=
  { sampleProfile with avg_demand := 0 }

/-- The default profile under a community-type string outside the
`type_factors` table. -/
def offTableProfile : CommunityProfile :=
  { sampleProfile with type := "offgrid_microgrid" }

/-- The default profile with every field that the calculator ignores changed. -/
def renamedProfile : CommunityProfile :=
  { name := "Other Community"
    region := "Other Region"
    type := "rural_agricultural"
    population := "99"
    avg_demand := 22000
    peak_demand := 70000
    avg_ghi := 400
    avg_wind_speed := 9.9
    season_pattern := "Winter dominant (Low solar, stable demand)"
    main_challenge := "High energy costs"
    special_needs := "Hospitals" }

/-- Concatenation of the pieces of an interpolated string, in order. -/
def joinParts : List String → String
  | [] => ""
  | s :: rest => s ++ joinParts rest

/-- Helper for `pyTitle`: walks the characters carrying whether the previous
character was alphabetic. -/
def pyTitleGo : Bool → List Char → List Char
  | _, [] => []
  | prevAlpha, c :: rest =>
    (if c.isAlpha then (if prevAlpha then c.toLower else c.toUpper) else c) ::
      pyTitleGo c.isAlpha rest

/-- Python `str.title()`: uppercase each letter that starts a word, lowercase
the other letters. -/
def pyTitle (s : String) : String := String.mk (pyTitleGo false s.data)

/-- Round half to even, the rounding Python's `format` applies to floats
(idealized to exact rational arithmetic). -/
def pyRoundHalfEven (q : ℚ) : ℤ :=
  if q - ⌊q⌋ < 1/2 then ⌊q⌋
  else if 1/2 < q - ⌊q⌋ then ⌊q⌋ + 1
  else if ⌊q⌋ % 2 = 0 then ⌊q⌋ else ⌊q⌋ + 1

/-- Decimal digits of `n` padded to at least `prec + 1` digits, with a
decimal point before the last `prec` digits (no point when `prec = 0`). -/
def digitsWithPoint (prec : ℕ) (n : ℕ) : String :=
  if prec = 0 then toString n
  else
    let s := toString n
    let s := if s.length ≤ prec then String.mk (List.replicate (prec + 1 - s.length) '0') ++ s
      else s
    s.take (s.length - prec) ++ ("." ++ s.drop (s.length - prec))

/-- Python format spec `.Nf` on a float, idealized to rationals: round
half-even at `prec` decimals and print with exactly `prec` decimals. -/
def fmtFixed (prec : ℕ) (q : ℚ) : String :=
  let n := pyRoundHalfEven (q * 10 ^ prec)
  let sign := if n < 0 ∨ (n = 0 ∧ q < 0) then "-" else ""
  sign ++ digitsWithPoint prec n.natAbs

/-- Insert a comma after every third character of a reversed digit list. -/
def groupRev : List Char → List Char
  | [] => []
  | [a] => [a]
  | [a, b] => [a, b]
  | [a, b, c] => [a, b, c]
  | a :: b :: c :: rest => a :: b :: c :: ',' :: groupRev rest

/-- Python format spec `,.0f`: round to an integer and group the digits in
threes with commas. -/
def fmtCommaFixed0 (q : ℚ) : String :=
  let n := pyRoundHalfEven q
  let sign := if n < 0 ∨ (n = 0 ∧ q < 0) then "-" else ""
  sign ++ String.mk ((groupRev (toString n.natAbs).data.reverse).reverse)

/-- Python format spec `.1%`: multiply by 100, format with one decimal,
append a percent sign. -/
def fmtPct1 (q : ℚ) : String := fmtFixed 1 (q * 100) ++ "%"

/-- Python `str()` of a float, idealized to the rational embedding: a value
with a finite decimal expansion prints as its shortest exact decimal with at
least one fractional digit (this covers every value the program's defaults
and decimal inputs produce); other rationals, which have no float
counterpart, print truncated to 17 decimals. -/
def pyFloatStr (q : ℚ) : String :=
  let sign := if q < 0 then "-" else ""
  let a := |q|
  match (List.range 18).find? (fun k => (a * 10 ^ k).den == 1) with
  | some 0 => sign ++ toString a.num ++ ".0"
  | some k => sign ++ digitsWithPoint k (a * 10 ^ k).num.natAbs
  | none => sign ++ digitsWithPoint 17 ⌊a * 10 ^ 17⌋.natAbs

/-- The source expression `'='*70`: a bar of 70 equals signs. -/
def eqBar : String := String.mk (List.replicate 70 '=')

/-- Pieces of the f-string of `generate_technical_analysis`, in order:
literal text alternating with the interpolated, formatted values. -/
def technicalParts (c : CommunityProfile) (m : ImpactMetrics) : List String :=
  [ "\n🔧 TECHNICAL ANALYSIS (Based on Your CNN+LSTM Model)\n\nMODEL PERFORMANCE IN ",
    c.name.toUpper,
    ":\n• Solar Prediction Accuracy: ",
    fmtPct1 m.prediction_accuracy_pv,
    " (R² = ",
    fmtFixed 3 m.prediction_accuracy_pv,
    ")\n• Wind Prediction Accuracy: ",
    fmtPct1 m.prediction_accuracy_wind,
    " (R² = ",
    fmtFixed 3 m.prediction_accuracy_wind,
    ")\n• Prediction Error Margin: ±",
    fmtFixed 0 m.prediction_error_pv,
    " units (PV), ±",
    fmtFixed 0 m.prediction_error_wind,
    " units (Wind)\n\nDATA FEATURES UTILIZED (From Your Database):\n✓ Time-series patterns (48-hour window)\n✓ Seasonal variations (Season: ",
    c.season_pattern,
    ")\n✓ Solar irradiance (GHI: ",
    pyFloatStr c.avg_ghi,
    " W/m²)\n✓ Wind patterns (Wind speed: ",
    pyFloatStr c.avg_wind_speed,
    " m/s)\n✓ Temperature and humidity correlations\n✓ Historical production patterns\n\nOPTIMIZATION OPPORTUNITIES:\n• Load shifting potential: ",
    fmtFixed 0 m.peak_reduction,
    "% peak demand reduction\n• Renewable integration: ",
    fmtFixed 0 m.renewable_penetration,
    "% of total demand\n• Storage optimization: Based on 48-hour prediction window\n• Maintenance scheduling: Predictive alerts for system upkeep\n" ]

/-- Method `generate_technical_analysis`: the rendered analysis text. -/
def generate_technical_analysis (c : CommunityProfile) (m : ImpactMetrics) : String :=
  joinParts (technicalParts c m)

/-- Pieces of the f-string of `generate_ai_report`, in order: literal text
alternating with the interpolated, formatted values. The `now` argument
stands for `datetime.now().strftime` in the footer. -/
def reportParts (c : CommunityProfile) (m : ImpactMetrics) (now : String) : List String :=
  [ "\n🤖 AI-POWERED RENEWABLE ENERGY IMPACT REPORT\n",
    eqBar,
    "\nPowered by Hybrid CNN+LSTM Model (R²: 0.983 PV, 0.965 Wind)\n\nCOMMUNITY: ",
    c.name,
    "\nREGION: ",
    c.region,
    "\nPOPULATION: ",
    c.population,
    "\nCOMMUNITY TYPE: ",
    pyTitle (String.replace c.type ("_") (" ")),
    "\nENERGY PROFILE: ",
    c.season_pattern,
    "\n\n📊 EXECUTIVE SUMMARY\n\nOur AI model analysis shows exceptional potential for ",
    c.name,
    ":\n\n• 💰 ECONOMIC: ",
    fmtFixed 0 m.cost_reduction_percent,
    "% cost reduction (₹",
    fmtCommaFixed0 m.monthly_savings_inr,
    "/month)\n• 🌱 ENVIRONMENTAL: ",
    fmtCommaFixed0 m.co2_reduction_tons,
    " tons CO₂ reduction annually\n• ⚡ RELIABILITY: ",
    fmtFixed 0 m.reliability_improvement,
    "% improvement in energy access\n• 👥 SOCIAL: ",
    toString m.jobs_created,
    " local green jobs created\n\n🎯 ENERGY PROFILE ANALYSIS\n\nCurrent Situation:\n• Average Demand: ",
    fmtCommaFixed0 c.avg_demand,
    " kW\n• Peak Demand: ",
    fmtCommaFixed0 c.peak_demand,
    " kW  \n• Solar Potential: ",
    pyFloatStr c.avg_ghi,
    " W/m² GHI\n• Wind Potential: ",
    pyFloatStr c.avg_wind_speed,
    " m/s\n• Main Challenge: ",
    c.main_challenge,
    "\n\nAI Model Confidence:\n• Solar Prediction: ",
    fmtPct1 m.prediction_accuracy_pv,
    " accuracy\n• Wind Prediction: ",
    fmtPct1 m.prediction_accuracy_wind,
    " accuracy\n• Combined Reliability: ",
    fmtPct1 ((m.prediction_accuracy_pv + m.prediction_accuracy_wind) / 2),
    "\n\n🚀 OPTIMIZATION STRATEGY\n\nPhase 1: Smart Forecasting (Months 1-3)\n• Deploy 48-hour ahead predictions using CNN+LSTM\n• Integrate with existing grid infrastructure\n• Train local operators on AI system\n\nPhase 2: Renewable Integration (Months 4-8)\n• Achieve ",
    fmtFixed 0 m.renewable_penetration,
    "% renewable penetration\n• Implement peak shaving strategies\n• Establish maintenance protocols\n\nPhase 3: Community Empowerment (Months 9-12)\n• Local ownership transition\n• Performance monitoring dashboard\n• Expansion planning\n\n",
    generate_technical_analysis c m,
    "\n\n📈 QUANTIFIED BENEFITS\n\nIMMEDIATE (3-6 months):\n• Energy cost reduction: ",
    fmtFixed 0 m.cost_reduction_percent,
    "%\n• Grid reliability: ",
    fmtFixed 0 m.reliability_improvement,
    "% improvement  \n• Diesel displacement: ",
    fmtCommaFixed0 m.diesel_displacement_liters,
    " liters/month\n\nLONG-TERM (1-2 years):\n• CO₂ reduction: ",
    fmtCommaFixed0 m.co2_reduction_tons,
    " tons annually\n• Job creation: ",
    toString m.jobs_created,
    " sustainable local jobs\n• Energy independence: ",
    fmtFixed 0 m.renewable_penetration,
    "% self-sufficiency\n\n💡 UNIQUE VALUE PROPOSITION\n\nYOUR AI MODEL EXCELLENCE:\n• Exceptional accuracy (98.3% for solar, 96.5% for wind)\n• 48-hour prediction window for optimal planning\n• Hybrid CNN-LSTM architecture for spatiotemporal patterns\n• Proven performance on your dataset structure\n\n🎯 RECOMMENDATIONS FOR ",
    c.name.toUpper,
    "\n\n1. TECHNICAL DEPLOYMENT:\n   • Leverage 48-hour prediction window for energy scheduling\n   • Use seasonal patterns from your data for capacity planning\n   • Implement real-time monitoring based on GHI and wind speed\n\n2. ECONOMIC MODEL:\n   • Payback period: ",
    fmtFixed 0 m.payback_months,
    " months\n   • ROI: ",
    fmtFixed 0 (m.cost_reduction_percent * 3),
    "% over 3 years\n   • Operational savings: ₹",
    fmtCommaFixed0 m.monthly_savings_inr,
    "/month\n\n3. COMMUNITY ENGAGEMENT:\n   • Train ",
    toString m.jobs_created,
    " local technicians\n   • Establish community energy committee\n   • Develop educational programs on renewable energy\n\n🌍 SUSTAINABILITY IMPACT\n\nALIGNMENT WITH SDGs:\n✓ SDG 7: Affordable & Clean Energy (",
    fmtFixed 0 m.renewable_penetration,
    "% renewable)\n✓ SDG 8: Decent Work (",
    toString m.jobs_created,
    " green jobs)  \n✓ SDG 13: Climate Action (",
    fmtCommaFixed0 m.co2_reduction_tons,
    " tons CO₂ reduction)\n\nSCALABILITY POTENTIAL:\n• Template for similar ",
    String.replace c.type ("_") (" "),
    " communities\n• Modular architecture for different regions\n• Data-driven optimization continuous learning\n\n---\nAI Model: Hybrid CNN-LSTM | Accuracy: PV ",
    fmtPct1 pv_r2,
    ", Wind ",
    fmtPct1 wind_r2,
    "\nGenerated for: ",
    c.name,
    " | Date: ",
    now,
    "\nData Features: Time, Season, DHI, DNI, GHI, Wind_speed, Humidity, Temperature\n",
    eqBar,
    "\n" ]

/-- Method `generate_ai_report`: the rendered report text. -/
def generate_ai_report (c : CommunityProfile) (m : ImpactMetrics) (now : String) : String :=
  joinParts (reportParts c m now)

/-- Substring occurrence: `s` appears somewhere inside `t`. -/
def appearsIn (s t : String) : Prop := ∃ a b : String, t = a ++ s ++ b

/-- C1: for the default rural-agricultural profile the calculator yields the
scenario values: both potential factors 1, 39.05 percent cost reduction, 2640
monthly savings, 17600 tons of CO2, 4 jobs, payback 24.204 months. -/
theorem C1_default_scenario (p : CommunityProfile)
    (h1 : p.type = "rural_agricultural") (h2 : p.avg_demand = 22000)
    (h3 : p.avg_ghi = 400) (h4 : p.avg_wind_speed = 3.0) :
    ghi_factor p.avg_ghi = 1 ∧ wind_factor p.avg_wind_speed = 1 ∧
    (calculate_personalized_impact p).cost_reduction_percent = 39.05 ∧
    (calculate_personalized_impact p).monthly_savings_inr = 2640 ∧
    (calculate_personalized_impact p).co2_reduction_tons = 17600 ∧
    (calculate_personalized_impact p).jobs_created = 4 ∧
    (calculate_personalized_impact p).payback_months = 24.204 := by
  simp only [calculate_personalized_impact, type_factors, ghi_factor, wind_factor,
    pyInt, pv_r2, wind_r2, h1, h2, h3, h4]
  norm_num

/-- C1 witness: the scenario instantiated at the literal default profile. -/
theorem C1_default_scenario_witness :
    ghi_factor sampleProfile.avg_ghi = 1 ∧
    wind_factor sampleProfile.avg_wind_speed = 1 ∧
    (calculate_personalized_impact sampleProfile).cost_reduction_percent = 39.05 ∧
    (calculate_personalized_impact sampleProfile).monthly_savings_inr = 2640 ∧
    (calculate_personalized_impact sampleProfile).co2_reduction_tons = 17600 ∧
    (calculate_personalized_impact sampleProfile).jobs_created = 4 ∧
    (calculate_personalized_impact sampleProfile).payback_months = 24.204 :=
  C1_default_scenario sampleProfile rfl rfl rfl rfl

/-- C10: `reliability_improvement` is the constant (0.983 + 0.965) * 45 = 87.66
for every profile. -/
theorem C10_reliability_constant (p : CommunityProfile) :
    (calculate_personalized_impact p).reliability_improvement = 87.66 := by
  simp only [calculate_personalized_impact, pv_r2, wind_r2]
  norm_num

/-- C2 counterexample: `payback_months` of the default profile is 24.204,
which is not an integer, so no floor was applied to it. -/
theorem C2_payback_not_integer :
    (calculate_personalized_impact sampleProfile).payback_months = 24.204 ∧
    ¬ ∃ n : ℤ, ((n : ℚ) = (calculate_personalized_impact sampleProfile).payback_months) := by
  have h24 : (calculate_personalized_impact sampleProfile).payback_months = 24.204 := by
    simp only [calculate_personalized_impact, pv_r2]
    norm_num
  refine ⟨h24, ?_⟩
  rintro ⟨n, hn⟩
  rw [h24] at hn
  have hq : (n : ℚ) * 250 = 6051 := by rw [hn]; norm_num
  have hz : n * 250 = 6051 := by exact_mod_cast hq
  omega

/-- C2 amended: `payback_months` equals max(18, 36 − 0.983×12) = 24.204 for
every profile — a non-integer value, with no floor applied — and is at
least 18. -/
theorem C2_payback_amended (p : CommunityProfile) :
    (calculate_personalized_impact p).payback_months = 24.204 ∧
    18 ≤ (calculate_personalized_impact p).payback_months := by
  simp only [calculate_personalized_impact, pv_r2]
  norm_num

/-- C3 counterexample: negative inputs escape the claimed lower clamp — at
avg_ghi = −400 the ghi factor is −1 and at avg_wind_speed = −3 the wind
factor is −1, both below 0. -/
theorem C3_negative_input_escapes_clamp :
    ghi_factor (-400) = -1 ∧ wind_factor (-3) = -1 ∧
    ghi_factor (-400) < 0 ∧ wind_factor (-3) < 0 := by
  simp only [ghi_factor, wind_factor, min_def]
  norm_num

/-- C3 amended: `min` clamps the factors from above only — ghi_factor ≤ 1.5
and wind_factor ≤ 1.8 for every input, while the lower bound 0 holds when
the corresponding input is non-negative. -/
theorem C3_clamp_amended (g w : ℚ) :
    ghi_factor g ≤ 1.5 ∧ wind_factor w ≤ 1.8 ∧
    (0 ≤ g → 0 ≤ ghi_factor g) ∧ (0 ≤ w → 0 ≤ wind_factor w) := by
  refine ⟨min_le_left _ _, min_le_left _ _, fun hg => ?_, fun hw => ?_⟩
  · exact le_min (by norm_num) (by positivity)
  · exact le_min (by norm_num) (by positivity)

/-- C3 witness: the amended clamp bounds evaluated at the default inputs
ghi = 400 and wind speed = 3. -/
theorem C3_clamp_amended_witness :
    ghi_factor 400 ≤ 1.5 ∧ wind_factor 3 ≤ 1.8 ∧
    0 ≤ ghi_factor 400 ∧ 0 ≤ wind_factor 3 :=
  ⟨(C3_clamp_amended 400 3).1, (C3_clamp_amended 400 3).2.1,
   (C3_clamp_amended 400 3).2.2.1 (by norm_num),
   (C3_clamp_amended 400 3).2.2.2 (by norm_num)⟩

/-- C4: for non-negative demand, jobs_created is max(3, floor(demand/5000)),
hence at least 3; at zero demand the calculator yields 3 jobs, zero CO2
reduction and zero monthly savings. -/
theorem C4_jobs_floor_clamp (p : CommunityProfile) (h : 0 ≤ p.avg_demand) :
    (calculate_personalized_impact p).jobs_created = max 3 ⌊p.avg_demand / 5000⌋ ∧
    3 ≤ (calculate_personalized_impact p).jobs_created ∧
    (p.avg_demand = 0 →
      (calculate_personalized_impact p).jobs_created = 3 ∧
      (calculate_personalized_impact p).co2_reduction_tons = 0 ∧
      (calculate_personalized_impact p).monthly_savings_inr = 0) := by
  have hdiv : 0 ≤ p.avg_demand / 5000 := by positivity
  have hpy : pyInt (p.avg_demand / 5000) = ⌊p.avg_demand / 5000⌋ := if_pos hdiv
  refine ⟨?_, ?_, fun h0 => ?_⟩
  · simp only [calculate_personalized_impact, hpy]
  · exact le_max_left _ _
  · simp only [calculate_personalized_impact, pyInt, h0]
    norm_num

/-- C4 witness: the jobs floor-clamp and the zero-demand scenario evaluated
at the default profile with avg_demand set to 0. -/
theorem C4_jobs_floor_clamp_witness :
    (calculate_personalized_impact zeroDemandProfile).jobs_created =
      max 3 ⌊zeroDemandProfile.avg_demand / 5000⌋ ∧
    3 ≤ (calculate_personalized_impact zeroDemandProfile).jobs_created ∧
    (calculate_personalized_impact zeroDemandProfile).jobs_created = 3 ∧
    (calculate_personalized_impact zeroDemandProfile).co2_reduction_tons = 0 ∧
    (calculate_personalized_impact zeroDemandProfile).monthly_savings_inr = 0 :=
  ⟨(C4_jobs_floor_clamp zeroDemandProfile (by norm_num [zeroDemandProfile, sampleProfile])).1,
   (C4_jobs_floor_clamp zeroDemandProfile (by norm_num [zeroDemandProfile, sampleProfile])).2.1,
   (C4_jobs_floor_clamp zeroDemandProfile (by norm_num [zeroDemandProfile, sampleProfile])).2.2 rfl⟩

/-- C5: renewable_penetration is (0.983×40 + 0.965×30) times the ghi factor
for every profile, and changing avg_wind_speed alone never changes it (the
wind factor is computed by the source but unused in this derivation). -/
theorem C5_renewable_penetration_ignores_wind (p : CommunityProfile) :
    (calculate_personalized_impact p).renewable_penetration =
      (0.983 * 40 + 0.965 * 30) * ghi_factor p.avg_ghi ∧
    ∀ w : ℚ, (calculate_personalized_impact { p with avg_wind_speed := w }).renewable_penetration =
      (calculate_personalized_impact p).renewable_penetration := by
  constructor
  · simp only [calculate_personalized_impact, pv_r2, wind_r2]
  · intro w
    simp only [calculate_personalized_impact]

/-- C6: a community-type string outside the four-entry table falls back to
the adjustment factor 1.0, so the metrics coincide with those of the same
profile under the factor-1.0 type rural_agricultural. -/
theorem C6_unrecognized_type_factor_one (p : CommunityProfile)
    (h1 : p.type ≠ "rural_agricultural") (h2 : p.type ≠ "urban_mixed")
    (h3 : p.type ≠ "industrial_zone") (h4 : p.type ≠ "coastal_area") :
    type_factors p.type = 1 ∧
    calculate_personalized_impact p =
      calculate_personalized_impact { p with type := "rural_agricultural" } := by
  have hf : type_factors p.type = 1 := by
    simp only [type_factors, h1, h2, h3, h4, if_false, if_neg]
    norm_num
  refine ⟨hf, ?_⟩
  simp only [calculate_personalized_impact, type_factors, h1, h2, h3, h4]
  norm_num

/-- C6 witness: the fallback evaluated at the default profile retyped with
the unlisted string offgrid_microgrid. -/
theorem C6_unrecognized_type_factor_one_witness :
    type_factors offTableProfile.type = 1 ∧
    calculate_personalized_impact offTableProfile =
      calculate_personalized_impact { offTableProfile with type := "rural_agricultural" } :=
  C6_unrecognized_type_factor_one offTableProfile (by decide) (by decide) (by decide) (by decide)

/-- C7: the calculator is a pure function — identical profiles give identical
metrics, and the only model inputs are the fixed constants 0.983 and 0.965. -/
theorem C7_deterministic (p q : CommunityProfile) (h : p = q) :
    calculate_personalized_impact p = calculate_personalized_impact q ∧
    (calculate_personalized_impact p).prediction_accuracy_pv = 0.983 ∧
    (calculate_personalized_impact p).prediction_accuracy_wind = 0.965 := by
  subst h
  refine ⟨rfl, ?_, ?_⟩ <;> simp only [calculate_personalized_impact, pv_r2, wind_r2]

/-- C7 witness: determinism evaluated at the default profile. -/
theorem C7_deterministic_witness :
    calculate_personalized_impact sampleProfile = calculate_personalized_impact sampleProfile ∧
    (calculate_personalized_impact sampleProfile).prediction_accuracy_pv = 0.983 ∧
    (calculate_personalized_impact sampleProfile).prediction_accuracy_wind = 0.965 :=
  C7_deterministic sampleProfile sampleProfile rfl

/-- C9: the metrics depend only on community type, average demand, and
average ghi — two profiles agreeing on those three fields get identical
ImpactMetrics, whatever their other fields. -/
theorem C9_three_field_dependence (p q : CommunityProfile)
    (ht : p.type = q.type) (hd : p.avg_demand = q.avg_demand)
    (hg : p.avg_ghi = q.avg_ghi) :
    calculate_personalized_impact p = calculate_personalized_impact q := by
  simp only [calculate_personalized_impact, ht, hd, hg]

/-- C9 witness: the default profile against a profile renaming every ignored
field while keeping type, demand and ghi. -/
theorem C9_three_field_dependence_witness :
    calculate_personalized_impact sampleProfile = calculate_personalized_impact renamedProfile :=
  C9_three_field_dependence sampleProfile renamedProfile rfl rfl rfl

/-- A member of a parts list appears in the joined string. -/
theorem appearsIn_of_mem {s : String} : ∀ {l : List String}, s ∈ l → appearsIn s (joinParts l) := by
  intro l h
  induction l with
  | nil => cases h
  | cons a rest ih =>
    rcases List.mem_cons.mp h with h1 | h2
    · refine ⟨"", joinParts rest, ?_⟩
      show a ++ joinParts rest = "" ++ s ++ joinParts rest
      rw [h1, String.empty_append]
    · obtain ⟨x, y, hxy⟩ := ih h2
      refine ⟨a ++ x, y, ?_⟩
      show a ++ joinParts rest = a ++ x ++ s ++ y
      rw [hxy]
      simp only [String.append_assoc]

/-- Substring occurrence is transitive. -/
theorem appearsIn_trans {s t u : String} (h1 : appearsIn s t) (h2 : appearsIn t u) :
    appearsIn s u := by
  obtain ⟨a, b, rfl⟩ := h1
  obtain ⟨x, y, rfl⟩ := h2
  exact ⟨x ++ a, b ++ y, by simp only [String.append_assoc]⟩

/-- C8: every metric field of the derived ImpactMetrics appears, in its
display formatting, as a substring of the rendered report text (the fields
peak_reduction, prediction_error_pv and prediction_error_wind through the
embedded technical-analysis section). -/
theorem C8_report_round_trip (c : CommunityProfile) (now : String) :
    appearsIn (fmtFixed 0 (calculate_personalized_impact c).cost_reduction_percent)
      (generate_ai_report c (calculate_personalized_impact c) now) ∧
    appearsIn (fmtCommaFixed0 (calculate_personalized_impact c).monthly_savings_inr)
      (generate_ai_report c (calculate_personalized_impact c) now) ∧
    appearsIn (fmtFixed 0 (calculate_personalized_impact c).reliability_improvement)
      (generate_ai_report c (calculate_personalized_impact c) now) ∧
    appearsIn (fmtFixed 0 (calculate_personalized_impact c).renewable_penetration)
      (generate_ai_report c (calculate_personalized_impact c) now) ∧
    appearsIn (fmtFixed 0 (calculate_personalized_impact c).peak_reduction)
      (generate_ai_report c (calculate_personalized_impact c) now) ∧
    appearsIn (fmtCommaFixed0 (calculate_personalized_impact c).co2_reduction_tons)
      (generate_ai_report c (calculate_personalized_impact c) now) ∧
    appearsIn (fmtCommaFixed0 (calculate_personalized_impact c).diesel_displacement_liters)
      (generate_ai_report c (calculate_personalized_impact c) now) ∧
    appearsIn (toString (calculate_personalized_impact c).jobs_created)
      (generate_ai_report c (calculate_personalized_impact c) now) ∧
    appearsIn (fmtFixed 0 (calculate_personalized_impact c).payback_months)
      (generate_ai_report c (calculate_personalized_impact c) now) ∧
    appearsIn (fmtPct1 (calculate_personalized_impact c).prediction_accuracy_pv)
      (generate_ai_report c (calculate_personalized_impact c) now) ∧
    appearsIn (fmtPct1 (calculate_personalized_impact c).prediction_accuracy_wind)
      (generate_ai_report c (calculate_personalized_impact c) now) ∧
    appearsIn (fmtFixed 0 (calculate_personalized_impact c).prediction_error_pv)
      (generate_ai_report c (calculate_personalized_impact c) now) ∧
    appearsIn (fmtFixed 0 (calculate_personalized_impact c).prediction_error_wind)
      (generate_ai_report c (calculate_personalized_impact c) now) := by
  have hrep : ∀ s : String, s ∈ reportParts c (calculate_personalized_impact c) now →
      appearsIn s (generate_ai_report c (calculate_personalized_impact c) now) :=
    fun _ h => appearsIn_of_mem h
  have htech : ∀ s : String, s ∈ technicalParts c (calculate_personalized_impact c) →
      appearsIn s (generate_ai_report c (calculate_personalized_impact c) now) :=
    fun _ h => appearsIn_trans (appearsIn_of_mem h)
      (hrep _ (by simp [reportParts, generate_technical_analysis]))
  refine ⟨?_, ?_, ?_, ?_, ?_, ?_, ?_, ?_, ?_, ?_, ?_, ?_, ?_⟩
  · exact hrep _ (by simp [reportParts])
  · exact hrep _ (by simp [reportParts])
  · exact hrep _ (by simp [reportParts])
  · exact hrep _ (by simp [reportParts])
  · exact htech _ (by simp [technicalParts])
  · exact hrep _ (by simp [reportParts])
  · exact hrep _ (by simp [reportParts])
  · exact hrep _ (by simp [reportParts])
  · exact hrep _ (by simp [reportParts])
  · exact hrep _ (by simp [reportParts])
  · exact hrep _ (by simp [reportParts])
  · exact htech _ (by simp [technicalParts])
  · exact htech _ (by simp [technicalParts])
